import Mathlib

/-!
Shallow embedding of the CustomPodAutoscaler operator's reconciliation control
loop (`controllers/custompodautoscaler_controller.go`).

The single effectful function `Reconcile` is embedded as a pure function from
an environment (the outcomes of the external collaborator calls: the cluster
client, the scale client, the object reconciler and the cleanup collaborator)
to a result together with the ordered trace of collaborator calls it makes.
-/

set_option maxHeartbeats 1000000

/-! ## Data model (api/v1 types and the k8s objects the controller builds) -/

/-- EnvVar: a container environment variable (corev1.EnvVar). -/
structure EnvVar where
  name : String
  value : String
  deriving DecidableEq, Repr

/-- A container of the template pod spec.  `env` is `none` when the Go slice is
nil (the controller distinguishes nil from empty). `name`/`image` stand for the
fields the controller passes through untouched. -/
structure Container where
  name : String
  image : String
  env : Option (List EnvVar)
  deriving DecidableEq, Repr

/-- The parts of corev1.PodSpec the controller reads or writes. -/
structure PodSpec where
  containers : List Container
  serviceAccountName : String
  deriving DecidableEq, Repr

/-- Object metadata. `ns` is the Namespace field; labels are a string map,
modelled as an association list. -/
structure ObjectMeta where
  name : String
  ns : String
  labels : List (String × String)
  deriving DecidableEq, Repr

/-- corev1.PodTemplateSpec: metadata plus pod spec. -/
structure PodTemplateSpec where
  metadata : ObjectMeta
  spec : PodSpec
  deriving DecidableEq, Repr

/-- autoscaling/v1 CrossVersionObjectReference (the scale target reference). -/
structure ScaleTargetRef where
  kind : String
  name : String
  apiVersion : String
  deriving DecidableEq, Repr

/-- CustomPodAutoscalerConfig: one declared (name, value) config pair. -/
structure CustomPodAutoscalerConfig where
  name : String
  value : String
  deriving DecidableEq, Repr

/-- CustomPodAutoscalerSpec: the declared resource's spec.  The six
provisioning toggles are optional booleans (`*bool` in Go): `none` is unset. -/
structure CustomPodAutoscalerSpec where
  scaleTargetRef : ScaleTargetRef
  config : List CustomPodAutoscalerConfig
  template : PodTemplateSpec
  provisionRole : Option Bool
  provisionRoleBinding : Option Bool
  provisionServiceAccount : Option Bool
  provisionPod : Option Bool
  roleRequiresMetricsServer : Option Bool
  roleRequiresArgoRollouts : Option Bool
  deriving DecidableEq, Repr

/-- The declared CustomPodAutoscaler resource.  `ns` is its namespace,
`deletionTimestamp` is `some _` when the resource is marked for deletion, and
the metadata map of the resource is `annotations`. -/
structure CustomPodAutoscaler where
  name : String
  ns : String
  deletionTimestamp : Option String
  annotations : List (String × String)
  spec : CustomPodAutoscalerSpec
  deriving DecidableEq, Repr

/-- rbacv1.PolicyRule. -/
structure PolicyRule where
  apiGroups : List String
  resources : List String
  verbs : List String
  deriving DecidableEq, Repr

/-- corev1.ServiceAccount. -/
structure ServiceAccount where
  metadata : ObjectMeta
  deriving DecidableEq, Repr

/-- rbacv1.Role. -/
structure Role where
  metadata : ObjectMeta
  rules : List PolicyRule
  deriving DecidableEq, Repr

/-- rbacv1.Subject. -/
structure Subject where
  kind : String
  name : String
  ns : String
  deriving DecidableEq, Repr

/-- rbacv1.RoleRef. -/
structure RoleRef where
  kind : String
  name : String
  apiGroup : String
  deriving DecidableEq, Repr

/-- rbacv1.RoleBinding. -/
structure RoleBinding where
  metadata : ObjectMeta
  subjects : List Subject
  roleRef : RoleRef
  deriving DecidableEq, Repr

/-- corev1.Pod: the provisioned workload object. -/
structure Pod where
  metadata : ObjectMeta
  spec : PodSpec
  deriving DecidableEq, Repr

/-- autoscaling/v1 Scale: the scale-subresource state of the target.
`specReplicas` is Spec.Replicas, the field the pause path overwrites; the
remaining fields stand for everything else the Get returns. -/
structure Scale where
  name : String
  ns : String
  specReplicas : Int
  statusReplicas : Int
  statusSelector : String
  deriving DecidableEq, Repr

/-- schema.GroupVersion. -/
structure GroupVersion where
  group : String
  version : String
  deriving DecidableEq, Repr

/-- schema.GroupResource. -/
structure GroupResource where
  group : String
  resource : String
  deriving DecidableEq, Repr

/-! ## Constants (source lines 50-54) -/

def managedByLabel : String := "app.kubernetes.io/managed-by"

def OwnedByLabel : String := "v1.custompodautoscaler.com/owned-by"

/-- The pause key, `PausedReplicasAnnotation` in the source. -/
def pausedReplicasKey : String := "v1.custompodautoscaler.com/paused-replicas"

/-! ## Pure library functions used by the controller -/

/-- Go map read `m[k]`: the comma-ok lookup on a string map. -/
def lookupMap (m : List (String × String)) (k : String) : Option String :=
  (m.find? (fun p => p.1 = k)).map (·.2)

/-- Go map assignment `m[k] = v`: replace the value at an existing key,
otherwise add the binding. -/
def mapInsert (m : List (String × String)) (k v : String) : List (String × String) :=
  if m.any (fun p => p.1 = k) then m.map (fun p => if p.1 = k then (k, v) else p)
  else m ++ [(k, v)]

/-- `strconv.ParseInt(s, 10, 32)` as a partial function: `some v` exactly when
`s` is an optional sign followed by one or more base-10 digits and the value
fits a signed 32-bit integer; Go reports an error (and the caller aborts) in
every other case, including range overflow. -/
def parseInt32 (s : String) : Option Int :=
  let (sign, chars) : Int × List Char :=
    match s.toList with
    | '+' :: rest => (1, rest)
    | '-' :: rest => (-1, rest)
    | cs => (1, cs)
  if chars.isEmpty then none
  else if chars.all Char.isDigit then
    let n : Nat := chars.foldl (fun a c => a * 10 + (c.toNat - '0'.toNat)) 0
    let v : Int := sign * (n : Int)
    if -(2 ^ 31) ≤ v ∧ v ≤ 2 ^ 31 - 1 then some v else none
  else none

/-- Split a character list at every occurrence of `sep`. -/
def splitOnChar (sep : Char) : List Char → List (List Char)
  | [] => [[]]
  | x :: xs =>
    let rest := splitOnChar sep xs
    if x = sep then [] :: rest
    else
      match rest with
      | [] => [[x]]
      | r :: rs => (x :: r) :: rs

/-- `schema.ParseGroupVersion`: "" and "/" give the empty group/version, a
single segment is a bare version, one slash splits group/version, and more
than one slash is an error. -/
def parseGroupVersion (gv : String) : Option GroupVersion :=
  match (splitOnChar '/' gv.toList).map (fun cs => String.mk cs) with
  | [v] => some ⟨"", v⟩
  | [g, v] => some ⟨g, v⟩
  | _ => none

/-- One character of Go `encoding/json` string escaping (HTML escaping on, as
`json.Marshal` uses). -/
def jsonEscapeChar (c : Char) : String :=
  if c = '"' then "\\\""
  else if c = '\\' then "\\\\"
  else if c = '\n' then "\\n"
  else if c = '\r' then "\\r"
  else if c = '\t' then "\\t"
  else if c = '<' then "\\u003c"
  else if c = '>' then "\\u003e"
  else if c = '&' then "\\u0026"
  else if c.toNat < 32 then
    let hexDigit : Nat → Char := fun n =>
      if n < 10 then Char.ofNat ('0'.toNat + n) else Char.ofNat ('a'.toNat + (n - 10))
    "\\u00" ++ String.singleton (hexDigit (c.toNat / 16)) ++ String.singleton (hexDigit (c.toNat % 16))
  else if c.toNat = 0x2028 then "\\u2028"
  else if c.toNat = 0x2029 then "\\u2029"
  else String.singleton c

/-- Go `encoding/json` escaping of a whole string. -/
def jsonEscapeString (s : String) : String :=
  String.join (s.toList.map jsonEscapeChar)

/-- `json.Marshal` of the autoscaling/v1 CrossVersionObjectReference: fields in
declaration order with their json tags `kind`, `name`, `apiVersion,omitempty`.
This marshalling never fails. -/
def jsonMarshalScaleTargetRef (ref : ScaleTargetRef) : String :=
  "\x7b\"kind\":\"" ++ jsonEscapeString ref.kind ++ "\",\"name\":\"" ++
    jsonEscapeString ref.name ++ "\"" ++
    (if ref.apiVersion = "" then ""
     else ",\"apiVersion\":\"" ++ jsonEscapeString ref.apiVersion ++ "\"") ++ "\x7d"

/-! ## The environment: outcomes of the external collaborator calls -/

/-- Outcome of the initial `r.Client.Get` fetch of the declared resource. -/
inductive FetchResult where
  | notFound
  | fetchError
  | found (inst : CustomPodAutoscaler)
  deriving DecidableEq, Repr

/-- One invocation's environment: the outcome each external collaborator call
would have if made.  Each collaborator is called at most once per invocation,
so a single outcome per call suffices. -/
structure Env where
  fetch : FetchResult
  deleteOk : Bool
  scaleGetResult : Option Scale
  scaleUpdateOk : Bool
  serviceAccountReconcileOk : Bool
  roleReconcileOk : Bool
  roleBindingReconcileOk : Bool
  podReconcileOk : Bool
  podCleanupOk : Bool
  deriving DecidableEq, Repr

/-- A desired object handed to the object reconciler collaborator. -/
inductive K8sObject where
  | serviceAccount (sa : ServiceAccount)
  | role (r : Role)
  | roleBinding (rb : RoleBinding)
  | pod (p : Pod)
  deriving DecidableEq, Repr

/-- One external collaborator call made by the loop, in invocation order:
deletion of the declared resource, scale-subresource get/update, an object
reconciler call (with the arguments the controller passes), or pod cleanup. -/
inductive Event where
  | deleteInstance (inst : CustomPodAutoscaler)
  | scaleGet (ns : String) (gr : GroupResource) (name : String)
  | scaleUpdate (ns : String) (gr : GroupResource) (scale : Scale)
  | k8sReconcile (inst : CustomPodAutoscaler) (kind : String) (obj : K8sObject)
      (shouldProvision : Bool) (updateable : Bool)
  | podCleanup (inst : CustomPodAutoscaler)
  deriving DecidableEq, Repr

/-- The error the invocation surfaces, classified by the call that failed. -/
inductive ReconcileError where
  | fetchFailed
  | pauseParseFailed
  | deleteFailed
  | groupVersionParseFailed
  | scaleGetFailed
  | scaleUpdateFailed
  | serviceAccountMissing
  | objectReconcileFailed (kind : String)
  | cleanupFailed
  deriving DecidableEq, Repr

/-! ## Event classification -/

def Event.isDeleteInstance : Event → Bool
  | .deleteInstance _ => true
  | _ => false

def Event.isScaleGet : Event → Bool
  | .scaleGet .. => true
  | _ => false

def Event.isScaleUpdate : Event → Bool
  | .scaleUpdate .. => true
  | _ => false

def Event.isK8sReconcile : Event → Bool
  | .k8sReconcile .. => true
  | _ => false

def Event.isPodCleanup : Event → Bool
  | .podCleanup _ => true
  | _ => false

def Event.isServiceAccountReconcile : Event → Bool
  | .k8sReconcile _ _ (.serviceAccount _) _ _ => true
  | _ => false

def Event.isRoleReconcile : Event → Bool
  | .k8sReconcile _ _ (.role _) _ _ => true
  | _ => false

def Event.isRoleBindingReconcile : Event → Bool
  | .k8sReconcile _ _ (.roleBinding _) _ _ => true
  | _ => false

/-- `onlyAfter q p tr`: scanning the trace, no `q`-event occurs before the
first `p`-event (and with no `p`-event, no `q`-event at all).  Equivalently:
every `q`-event is strictly preceded by some `p`-event. -/
def onlyAfter (q p : Event → Bool) : List Event → Bool
  | [] => true
  | e :: rest => if q e then false else if p e then true else onlyAfter q p rest

/-! ## The reconciliation control loop -/

/-- Defaulting of the six provisioning toggles (source lines 194-217): each
unset (`nil`) toggle receives its fixed default; set toggles are unchanged. -/
def defaultToggles (inst : CustomPodAutoscaler) : CustomPodAutoscaler :=
  { inst with spec := { inst.spec with
      provisionRole := some (inst.spec.provisionRole.getD true),
      provisionRoleBinding := some (inst.spec.provisionRoleBinding.getD true),
      provisionServiceAccount := some (inst.spec.provisionServiceAccount.getD true),
      provisionPod := some (inst.spec.provisionPod.getD true),
      roleRequiresMetricsServer := some (inst.spec.roleRequiresMetricsServer.getD false),
      roleRequiresArgoRollouts := some (inst.spec.roleRequiresArgoRollouts.getD false) } }

/-- The standard labels put on every generated object (source lines 226-229). -/
def standardLabels (inst : CustomPodAutoscaler) : List (String × String) :=
  [(managedByLabel, "custom-pod-autoscaler-operator"), (OwnedByLabel, inst.name)]

/-- Service-account resolution (source lines 232-253): with provisioning
disabled the template must name an identity (else the BadRequest validation
error, modelled as `none`); with provisioning enabled the account is named
after the resource. -/
def resolveServiceAccount (inst : CustomPodAutoscaler) (labels : List (String × String)) :
    Option ServiceAccount :=
  if !(inst.spec.provisionServiceAccount.getD true) then
    if inst.spec.template.spec.serviceAccountName ≠ "" then
      some ⟨⟨inst.spec.template.spec.serviceAccountName, inst.ns, labels⟩⟩
    else none
  else some ⟨⟨inst.name, inst.ns, labels⟩⟩

/-- The role's rule set (source lines 267-295): the baseline two blocks, plus
one appended block per enabled role-extension toggle, metrics first. -/
def roleRules (roleRequiresMetricsServer roleRequiresArgoRollouts : Bool) : List PolicyRule :=
  let base : List PolicyRule :=
    [⟨[""], ["pods", "replicationcontrollers", "replicationcontrollers/scale"], ["*"]⟩,
     ⟨["apps"],
      ["deployments", "deployments/scale", "replicasets", "replicasets/scale",
       "statefulsets", "statefulsets/scale"], ["*"]⟩]
  let withMetrics :=
    if roleRequiresMetricsServer then
      base ++ [⟨["metrics.k8s.io", "custom.metrics.k8s.io", "external.metrics.k8s.io"], ["*"], ["*"]⟩]
    else base
  if roleRequiresArgoRollouts then
    withMetrics ++ [⟨["argoproj.io"], ["rollouts", "rollouts/scale"], ["*"]⟩]
  else withMetrics

/-- The permission (Role) object (source lines 261-295). -/
def buildRole (inst : CustomPodAutoscaler) (labels : List (String × String)) : Role :=
  ⟨⟨inst.name, inst.ns, labels⟩,
   roleRules (inst.spec.roleRequiresMetricsServer.getD false)
     (inst.spec.roleRequiresArgoRollouts.getD false)⟩

/-- The permission-binding (RoleBinding) object (source lines 303-321). -/
def buildRoleBinding (inst : CustomPodAutoscaler) (labels : List (String × String)) : RoleBinding :=
  ⟨⟨inst.name, inst.ns, labels⟩,
   [⟨"ServiceAccount", inst.name, inst.ns⟩],
   ⟨"Role", inst.name, "rbac.authorization.k8s.io"⟩⟩

/-- `createEnvVarsFromConfig` (source lines 409-418): one variable per config
pair, name and value verbatim, in declared order (the Go append loop). -/
def createEnvVarsFromConfig (configs : List CustomPodAutoscalerConfig) : List EnvVar :=
  configs.map (fun config => ⟨config.name, config.value⟩)

/-- `cpaEnvVars` (source lines 393-406): the scaleTargetRef and namespace
variables followed by the config-derived variables. -/
def cpaEnvVars (cr : CustomPodAutoscaler) (scaleTargetRef : String) : List EnvVar :=
  [⟨"scaleTargetRef", scaleTargetRef⟩, ⟨"namespace", cr.ns⟩] ++
    createEnvVarsFromConfig cr.spec.config

/-- The per-container environment injection (source lines 353-368): each
template container keeps its fields, with `cpaEnvVars` appended to its
environment (an unset environment counts as empty). -/
def injectContainers (cr : CustomPodAutoscaler) (scaleTargetRef : String) : List Container :=
  cr.spec.template.spec.containers.map (fun container =>
    let envVars := match container.env with
      | none => []
      | some e => e
    { container with env := some (envVars ++ cpaEnvVars cr scaleTargetRef) })

/-- The workload (Pod) object (source lines 328-377): template labels with the
two standard labels written over them, name/namespace defaulted from the
resource, containers with injected environment, and the pod spec pointed at
the resolved service account. -/
def buildPod (inst : CustomPodAutoscaler) (scaleTargetRef : String)
    (serviceAccount : ServiceAccount) : Pod :=
  let podLabels := mapInsert (mapInsert inst.spec.template.metadata.labels
    managedByLabel "custom-pod-autoscaler-operator") OwnedByLabel inst.name
  let objectMeta0 := inst.spec.template.metadata
  let objectMeta : ObjectMeta :=
    { name := if objectMeta0.name = "" then inst.name else objectMeta0.name,
      ns := if objectMeta0.ns = "" then inst.ns else objectMeta0.ns,
      labels := podLabels }
  let podSpec := inst.spec.template.spec
  { metadata := objectMeta,
    spec := { podSpec with
      containers := injectContainers inst scaleTargetRef,
      serviceAccountName := serviceAccount.metadata.name } }

/-- The tail of the normal path (source lines 328-389): the workload reconcile
call (updateable = false, gated by the pod toggle) followed, on success, by
the unconditional pod cleanup call. -/
def podPhase (inst : CustomPodAutoscaler) (env : Env) (scaleTargetRefStr : String)
    (serviceAccount : ServiceAccount) (priorEvents : List Event) :
    Option ReconcileError × List Event :=
  let pod := buildPod inst scaleTargetRefStr serviceAccount
  let podEvent := Event.k8sReconcile inst "v1/Pod" (.pod pod)
    (inst.spec.provisionPod.getD true) false
  if env.podReconcileOk then
    if env.podCleanupOk then (none, priorEvents ++ [podEvent, .podCleanup inst])
    else (some .cleanupFailed, priorEvents ++ [podEvent, .podCleanup inst])
  else (some (.objectReconcileFailed "v1/Pod"), priorEvents ++ [podEvent])

/-- The normal provisioning path (source lines 219-389), entered with the
toggles already defaulted: resolve the service account (BadRequest when
provisioning is disabled and the template names no identity, before any
collaborator call); when identity provisioning is enabled, converge the
service account, the role and the role binding in that order, each failure
aborting; then the workload phase. -/
def normalPath (inst : CustomPodAutoscaler) (env : Env) :
    Option ReconcileError × List Event :=
  let scaleTargetRefStr := jsonMarshalScaleTargetRef inst.spec.scaleTargetRef
  let labels := standardLabels inst
  match resolveServiceAccount inst labels with
  | none => (some .serviceAccountMissing, [])
  | some serviceAccount =>
    if inst.spec.provisionServiceAccount.getD true then
      let saEvent := Event.k8sReconcile inst "v1/ServiceAccount"
        (.serviceAccount serviceAccount) (inst.spec.provisionServiceAccount.getD true) true
      if env.serviceAccountReconcileOk then
        let role := buildRole inst labels
        let roleEvent := Event.k8sReconcile inst "v1/Role" (.role role)
          (inst.spec.provisionRole.getD true) true
        if env.roleReconcileOk then
          let roleBinding := buildRoleBinding inst labels
          let roleBindingEvent := Event.k8sReconcile inst "v1/RoleBinding"
            (.roleBinding roleBinding) (inst.spec.provisionRoleBinding.getD true) true
          if env.roleBindingReconcileOk then
            podPhase inst env scaleTargetRefStr serviceAccount
              [saEvent, roleEvent, roleBindingEvent]
          else (some (.objectReconcileFailed "v1/RoleBinding"),
            [saEvent, roleEvent, roleBindingEvent])
        else (some (.objectReconcileFailed "v1/Role"), [saEvent, roleEvent])
      else (some (.objectReconcileFailed "v1/ServiceAccount"), [saEvent])
    else podPhase inst env scaleTargetRefStr serviceAccount []

/-- The pause-override path (source lines 139-192): parse the pause value
(failure aborts with no call made); delete the declared resource; parse the
target's group/version; get the target's scale state; write it back with only
Spec.Replicas replaced by the parsed value. -/
def pausePath (inst : CustomPodAutoscaler) (env : Env) (pausedReplicasCount : String) :
    Option ReconcileError × List Event :=
  match parseInt32 pausedReplicasCount with
  | none => (some .pauseParseFailed, [])
  | some pausedReplicasCountInt32 =>
    if env.deleteOk then
      match parseGroupVersion inst.spec.scaleTargetRef.apiVersion with
      | none => (some .groupVersionParseFailed, [.deleteInstance inst])
      | some resourceGV =>
        let targetGR : GroupResource := ⟨resourceGV.group, inst.spec.scaleTargetRef.kind⟩
        match env.scaleGetResult with
        | none => (some .scaleGetFailed,
            [.deleteInstance inst,
             .scaleGet inst.ns targetGR inst.spec.scaleTargetRef.name])
        | some scaleResource =>
          let updated := { scaleResource with specReplicas := pausedReplicasCountInt32 }
          if env.scaleUpdateOk then
            (none,
             [.deleteInstance inst,
              .scaleGet inst.ns targetGR inst.spec.scaleTargetRef.name,
              .scaleUpdate inst.ns targetGR updated])
          else
            (some .scaleUpdateFailed,
             [.deleteInstance inst,
              .scaleGet inst.ns targetGR inst.spec.scaleTargetRef.name,
              .scaleUpdate inst.ns targetGR updated])
    else (some .deleteFailed, [.deleteInstance inst])

/-- The body of `Reconcile` once the resource is fetched (source lines
131-192): the deletion-timestamp check, then the pause-annotation check
selecting the pause path, else defaulting followed by the normal path. -/
def reconcileInstance (inst : CustomPodAutoscaler) (env : Env) :
    Option ReconcileError × List Event :=
  match inst.deletionTimestamp with
  | some _ => (none, [])
  | none =>
    match lookupMap inst.annotations pausedReplicasKey with
    | some pausedReplicasCount => pausePath inst env pausedReplicasCount
    | none => normalPath (defaultToggles inst) env

/-- `Reconcile` (source lines 114-390): fetch the resource (not-found is a
silent no-op, other fetch failures surface), then run `reconcileInstance`. -/
def Reconcile (env : Env) : Option ReconcileError × List Event :=
  match env.fetch with
  | .notFound => (none, [])
  | .fetchError => (some .fetchFailed, [])
  | .found inst => reconcileInstance inst env

/-! ## Sample inputs used by the witnesses -/

def sampleScaleTargetRef : ScaleTargetRef := ⟨"Deployment", "x", "apps/v1"⟩

def sampleContainer : Container := ⟨"main", "cpa:latest", none⟩

def sampleTemplate : PodTemplateSpec := ⟨⟨"", "", []⟩, ⟨[sampleContainer], ""⟩⟩

def sampleSpec : CustomPodAutoscalerSpec :=
  ⟨sampleScaleTargetRef, [⟨"interval", "30"⟩], sampleTemplate,
   none, none, none, none, none, none⟩

def sampleScale : Scale := ⟨"x", "default", 3, 3, "app=x"⟩

/-- A resource with a well-formed pause value. -/
def pausedInstance : CustomPodAutoscaler :=
  ⟨"cpa-1", "default", none, [(pausedReplicasKey, "5")], sampleSpec⟩

/-- A resource whose pause value does not parse. -/
def badPausedInstance : CustomPodAutoscaler :=
  ⟨"cpa-1", "default", none, [(pausedReplicasKey, "abc")], sampleSpec⟩

/-- A plain resource on the normal path with all toggles unset. -/
def normalInstance : CustomPodAutoscaler := ⟨"cpa-1", "default", none, [], sampleSpec⟩

/-- Identity provisioning disabled and no identity named in the template. -/
def noIdentityInstance : CustomPodAutoscaler :=
  ⟨"cpa-1", "default", none, [],
   { sampleSpec with provisionServiceAccount := some false }⟩

/-- A resource marked for deletion that also carries the pause key. -/
def deletingInstance : CustomPodAutoscaler :=
  ⟨"cpa-1", "default", some "2026-10-11T00:00:00Z", [(pausedReplicasKey, "5")], sampleSpec⟩

/-- An environment where every collaborator call succeeds. -/
def fullEnv (f : FetchResult) : Env := ⟨f, true, some sampleScale, true, true, true, true, true, true⟩

/-! ## Reduction helpers -/

theorem Reconcile_found (env : Env) (inst : CustomPodAutoscaler)
    (hf : env.fetch = .found inst) : Reconcile env = reconcileInstance inst env := by
  unfold Reconcile
  rw [hf]

theorem reconcileInstance_deleted (inst : CustomPodAutoscaler) (env : Env) (ts : String)
    (hdel : inst.deletionTimestamp = some ts) : reconcileInstance inst env = (none, []) := by
  unfold reconcileInstance
  rw [hdel]

theorem reconcileInstance_paused (inst : CustomPodAutoscaler) (env : Env) (s : String)
    (hdel : inst.deletionTimestamp = none)
    (hann : lookupMap inst.annotations pausedReplicasKey = some s) :
    reconcileInstance inst env = pausePath inst env s := by
  unfold reconcileInstance
  rw [hdel, hann]

theorem reconcileInstance_normal (inst : CustomPodAutoscaler) (env : Env)
    (hdel : inst.deletionTimestamp = none)
    (hann : lookupMap inst.annotations pausedReplicasKey = none) :
    reconcileInstance inst env = normalPath (defaultToggles inst) env := by
  unfold reconcileInstance
  rw [hdel, hann]

/-! ## Claims -/

/-- Claim C9: for every resource whose deletion timestamp is set, `Reconcile`
returns success immediately after the fetch and makes no collaborator call at
all; in particular the pause-override path never executes, even when the pause
key is also present, because the deletion check precedes the pause check. -/
theorem deletion_timestamp_no_op (env : Env) (inst : CustomPodAutoscaler) (ts : String)
    (hf : env.fetch = .found inst) (hdel : inst.deletionTimestamp = some ts) :
    Reconcile env = (none, []) := by
  rw [Reconcile_found env inst hf, reconcileInstance_deleted inst env ts hdel]

/-- Witness for C9, at a resource that carries both a deletion timestamp and a
well-formed pause value. -/
theorem deletion_timestamp_no_op_witness :
    (fullEnv (.found deletingInstance)).fetch = .found deletingInstance ∧
      deletingInstance.deletionTimestamp = some "2026-10-11T00:00:00Z" ∧
      Reconcile (fullEnv (.found deletingInstance)) = (none, []) :=
  ⟨rfl, rfl, deletion_timestamp_no_op (fullEnv (.found deletingInstance)) deletingInstance
    "2026-10-11T00:00:00Z" rfl rfl⟩

/-- Claim C2: a pause value that does not parse as a base-10 signed 32-bit
integer makes `Reconcile` return the parse error with an empty call trace: the
declared resource is not deleted and the scale target is neither read nor
updated. -/
theorem pause_parse_failure_no_mutation (env : Env) (inst : CustomPodAutoscaler) (s : String)
    (hf : env.fetch = .found inst) (hdel : inst.deletionTimestamp = none)
    (hann : lookupMap inst.annotations pausedReplicasKey = some s)
    (hparse : parseInt32 s = none) :
    Reconcile env = (some .pauseParseFailed, []) := by
  rw [Reconcile_found env inst hf, reconcileInstance_paused inst env s hdel hann]
  unfold pausePath
  rw [hparse]

/-- Witness for C2 at the pause value "abc". -/
theorem pause_parse_failure_no_mutation_witness :
    lookupMap badPausedInstance.annotations pausedReplicasKey = some "abc" ∧
      parseInt32 "abc" = none ∧
      Reconcile (fullEnv (.found badPausedInstance)) = (some .pauseParseFailed, []) :=
  ⟨by decide, by decide,
   pause_parse_failure_no_mutation (fullEnv (.found badPausedInstance)) badPausedInstance
     "abc" rfl rfl (by decide) (by decide)⟩

/-- Claim C3: on the normal path, identity provisioning explicitly disabled
together with an empty template identity name makes `Reconcile` return the
BadRequest validation error with an empty call trace, so no object-reconciler
call and no cluster mutation happens. -/
theorem missing_identity_validation (env : Env) (inst : CustomPodAutoscaler)
    (hf : env.fetch = .found inst) (hdel : inst.deletionTimestamp = none)
    (hann : lookupMap inst.annotations pausedReplicasKey = none)
    (hsa : inst.spec.provisionServiceAccount = some false)
    (hname : inst.spec.template.spec.serviceAccountName = "") :
    Reconcile env = (some .serviceAccountMissing, []) := by
  rw [Reconcile_found env inst hf, reconcileInstance_normal inst env hdel hann]
  unfold normalPath resolveServiceAccount
  simp [defaultToggles, hsa, hname]

/-- Witness for C3. -/
theorem missing_identity_validation_witness :
    noIdentityInstance.spec.provisionServiceAccount = some false ∧
      noIdentityInstance.spec.template.spec.serviceAccountName = "" ∧
      Reconcile (fullEnv (.found noIdentityInstance)) = (some .serviceAccountMissing, []) :=
  ⟨by decide, by decide,
   missing_identity_validation (fullEnv (.found noIdentityInstance)) noIdentityInstance
     rfl rfl (by decide) (by decide) (by decide)⟩

/-- Claim C1: on the pause path (pause key present with a well-formed 32-bit
value), the declared resource's delete is the first collaborator call, every
scale get is strictly preceded by that delete, and every scale update is
strictly preceded by a scale get. -/
theorem pause_delete_before_scale_ops (env : Env) (inst : CustomPodAutoscaler)
    (s : String) (v : Int)
    (hf : env.fetch = .found inst) (hdel : inst.deletionTimestamp = none)
    (hann : lookupMap inst.annotations pausedReplicasKey = some s)
    (hparse : parseInt32 s = some v) :
    (∃ rest, (Reconcile env).2 = Event.deleteInstance inst :: rest) ∧
      onlyAfter Event.isScaleGet Event.isDeleteInstance (Reconcile env).2 = true ∧
      onlyAfter Event.isScaleUpdate Event.isScaleGet (Reconcile env).2 = true := by
  rw [Reconcile_found env inst hf, reconcileInstance_paused inst env s hdel hann]
  unfold pausePath
  rw [hparse]
  rcases hgv : parseGroupVersion inst.spec.scaleTargetRef.apiVersion with _ | gv <;>
    cases env.deleteOk <;>
    rcases env.scaleGetResult with _ | sc <;>
    cases env.scaleUpdateOk <;>
    exact ⟨⟨_, rfl⟩, rfl, rfl⟩

/-- Witness for C1: with every collaborator succeeding, the pause trace is
delete, then get, then update. -/
theorem pause_delete_before_scale_ops_witness :
    lookupMap pausedInstance.annotations pausedReplicasKey = some "5" ∧
      parseInt32 "5" = some 5 ∧
      ((∃ rest, (Reconcile (fullEnv (.found pausedInstance))).2 =
          Event.deleteInstance pausedInstance :: rest) ∧
        onlyAfter Event.isScaleGet Event.isDeleteInstance
          (Reconcile (fullEnv (.found pausedInstance))).2 = true ∧
        onlyAfter Event.isScaleUpdate Event.isScaleGet
          (Reconcile (fullEnv (.found pausedInstance))).2 = true) :=
  ⟨by decide, by decide,
   pause_delete_before_scale_ops (fullEnv (.found pausedInstance)) pausedInstance
     "5" 5 rfl rfl (by decide) (by decide)⟩

/-- Claim C10: on the pause path, once the delete, the group/version parse and
the scale get have succeeded, the scale state written back is exactly the
fetched scale state with only Spec.Replicas replaced by the parsed value —
shown by the full trace: the update call carries the fetched object with only
`specReplicas` rewritten. -/
theorem pause_scale_update_frame (env : Env) (inst : CustomPodAutoscaler)
    (s : String) (v : Int) (gv : GroupVersion) (sc : Scale)
    (hf : env.fetch = .found inst) (hdel : inst.deletionTimestamp = none)
    (hann : lookupMap inst.annotations pausedReplicasKey = some s)
    (hparse : parseInt32 s = some v)
    (hdelete : env.deleteOk = true)
    (hgv : parseGroupVersion inst.spec.scaleTargetRef.apiVersion = some gv)
    (hget : env.scaleGetResult = some sc) :
    (Reconcile env).2 =
      [Event.deleteInstance inst,
       Event.scaleGet inst.ns ⟨gv.group, inst.spec.scaleTargetRef.kind⟩
         inst.spec.scaleTargetRef.name,
       Event.scaleUpdate inst.ns ⟨gv.group, inst.spec.scaleTargetRef.kind⟩
         { sc with specReplicas := v }] := by
  rw [Reconcile_found env inst hf, reconcileInstance_paused inst env s hdel hann]
  unfold pausePath
  rw [hparse, hdelete, hgv, hget]
  cases env.scaleUpdateOk <;> rfl

/-- Witness for C10: replicas 3 is rewritten to the parsed 5; name, namespace,
status replicas and selector of the fetched scale are passed through. -/
theorem pause_scale_update_frame_witness :
    (fullEnv (.found pausedInstance)).scaleGetResult = some sampleScale ∧
      (Reconcile (fullEnv (.found pausedInstance))).2 =
        [Event.deleteInstance pausedInstance,
         Event.scaleGet "default" ⟨"apps", "Deployment"⟩ "x",
         Event.scaleUpdate "default" ⟨"apps", "Deployment"⟩
           { sampleScale with specReplicas := 5 }] :=
  ⟨by decide,
   pause_scale_update_frame (fullEnv (.found pausedInstance)) pausedInstance
     "5" 5 ⟨"apps", "v1"⟩ sampleScale rfl rfl (by decide) (by decide) rfl (by decide) rfl⟩

/-- Claim C4: each generated workload container keeps its original environment
(empty when unset) followed by, in this order, the `scaleTargetRef` variable
holding the canonical serialization of the scale target reference, the
`namespace` variable holding the resource's namespace, and one variable per
declared config pair with name and value verbatim in declared order; nothing
is deduplicated and the injection also happens with empty config. -/
theorem workload_env_injection (cr : CustomPodAutoscaler) (i : Nat)
    (h : i < cr.spec.template.spec.containers.length) :
    (injectContainers cr (jsonMarshalScaleTargetRef cr.spec.scaleTargetRef)).length =
      cr.spec.template.spec.containers.length ∧
    (injectContainers cr (jsonMarshalScaleTargetRef cr.spec.scaleTargetRef))[i]? =
      some { cr.spec.template.spec.containers.get ⟨i, h⟩ with
        env := some ((cr.spec.template.spec.containers.get ⟨i, h⟩).env.getD [] ++
          (⟨"scaleTargetRef", jsonMarshalScaleTargetRef cr.spec.scaleTargetRef⟩ ::
            ⟨"namespace", cr.ns⟩ ::
            cr.spec.config.map (fun c => (⟨c.name, c.value⟩ : EnvVar)))) } := by
  constructor
  · simp [injectContainers]
  · rw [injectContainers, List.getElem?_map, List.getElem?_eq_getElem h]
    simp only [Option.map_some, List.get_eq_getElem, Option.some.injEq]
    cases henv : (cr.spec.template.spec.containers[i]).env <;>
      simp [henv, cpaEnvVars, createEnvVarsFromConfig]

/-- Witness for C4: one container with an unset environment and one config
pair. -/
theorem workload_env_injection_witness :
    (0 : Nat) < normalInstance.spec.template.spec.containers.length ∧
      ((injectContainers normalInstance
          (jsonMarshalScaleTargetRef normalInstance.spec.scaleTargetRef)).length =
        normalInstance.spec.template.spec.containers.length ∧
      (injectContainers normalInstance
          (jsonMarshalScaleTargetRef normalInstance.spec.scaleTargetRef))[0]? =
        some { normalInstance.spec.template.spec.containers.get ⟨0, by decide⟩ with
          env := some ((normalInstance.spec.template.spec.containers.get
              ⟨0, by decide⟩).env.getD [] ++
            (⟨"scaleTargetRef", jsonMarshalScaleTargetRef normalInstance.spec.scaleTargetRef⟩ ::
              ⟨"namespace", normalInstance.ns⟩ ::
              normalInstance.spec.config.map (fun c => (⟨c.name, c.value⟩ : EnvVar)))) }) :=
  ⟨by decide, workload_env_injection normalInstance 0 (by decide)⟩

/-- Claim C6: with both role-extension toggles false the rule set is exactly
the baseline two blocks (core workload resources; apps workload resources with
their scale subresources); enabling `roleRequiresMetricsServer` appends
exactly one metrics-API block, enabling `roleRequiresArgoRollouts` appends
exactly one Argo rollout block, and enabling both appends both, metrics
first. -/
theorem role_rule_extension :
    roleRules false false =
      [⟨[""], ["pods", "replicationcontrollers", "replicationcontrollers/scale"], ["*"]⟩,
       ⟨["apps"],
        ["deployments", "deployments/scale", "replicasets", "replicasets/scale",
         "statefulsets", "statefulsets/scale"], ["*"]⟩] ∧
    (roleRules false false).length = 2 ∧
    roleRules true false = roleRules false false ++
      [⟨["metrics.k8s.io", "custom.metrics.k8s.io", "external.metrics.k8s.io"], ["*"], ["*"]⟩] ∧
    roleRules false true = roleRules false false ++
      [⟨["argoproj.io"], ["rollouts", "rollouts/scale"], ["*"]⟩] ∧
    roleRules true true = roleRules false false ++
      [⟨["metrics.k8s.io", "custom.metrics.k8s.io", "external.metrics.k8s.io"], ["*"], ["*"]⟩,
       ⟨["argoproj.io"], ["rollouts", "rollouts/scale"], ["*"]⟩] := by
  decide

/-! ## Normal-path trace helpers -/

theorem normalPath_role_after_sa (inst : CustomPodAutoscaler) (env : Env) :
    onlyAfter Event.isRoleReconcile Event.isServiceAccountReconcile
      (normalPath inst env).2 = true := by
  simp only [normalPath, podPhase]
  cases hres : resolveServiceAccount inst (standardLabels inst) <;>
    cases hb : inst.spec.provisionServiceAccount.getD true <;>
    cases env.serviceAccountReconcileOk <;>
    cases env.roleReconcileOk <;>
    cases env.roleBindingReconcileOk <;>
    cases env.podReconcileOk <;>
    cases env.podCleanupOk <;>
    rfl

theorem normalPath_rolebinding_after_role (inst : CustomPodAutoscaler) (env : Env) :
    onlyAfter Event.isRoleBindingReconcile Event.isRoleReconcile
      (normalPath inst env).2 = true := by
  simp only [normalPath, podPhase]
  cases hres : resolveServiceAccount inst (standardLabels inst) <;>
    cases hb : inst.spec.provisionServiceAccount.getD true <;>
    cases env.serviceAccountReconcileOk <;>
    cases env.roleReconcileOk <;>
    cases env.roleBindingReconcileOk <;>
    cases env.podReconcileOk <;>
    cases env.podCleanupOk <;>
    rfl

theorem normalPath_no_rbac_when_disabled (inst : CustomPodAutoscaler) (env : Env)
    (hsa : inst.spec.provisionServiceAccount = some false) :
    ((normalPath inst env).2.all
      (fun e => !e.isRoleReconcile && !e.isRoleBindingReconcile)) = true := by
  simp only [normalPath, podPhase]
  rw [hsa]
  cases hres : resolveServiceAccount inst (standardLabels inst) <;>
    cases env.podReconcileOk <;>
    cases env.podCleanupOk <;>
    rfl

theorem normalPath_only_normal_events (inst : CustomPodAutoscaler) (env : Env) :
    ((normalPath inst env).2.all (fun e => e.isK8sReconcile || e.isPodCleanup)) = true := by
  simp only [normalPath, podPhase]
  cases hres : resolveServiceAccount inst (standardLabels inst) <;>
    cases hb : inst.spec.provisionServiceAccount.getD true <;>
    cases env.serviceAccountReconcileOk <;>
    cases env.roleReconcileOk <;>
    cases env.roleBindingReconcileOk <;>
    cases env.podReconcileOk <;>
    cases env.podCleanupOk <;>
    rfl

theorem pausePath_only_pause_events (inst : CustomPodAutoscaler) (env : Env) (s : String) :
    ((pausePath inst env s).2.all
      (fun e => e.isDeleteInstance || e.isScaleGet || e.isScaleUpdate)) = true := by
  unfold pausePath
  cases hp : parseInt32 s <;>
    cases env.deleteOk <;>
    cases hgv : parseGroupVersion inst.spec.scaleTargetRef.apiVersion <;>
    cases env.scaleGetResult <;>
    cases env.scaleUpdateOk <;>
    rfl

/-- Claim C5: within any normal-path invocation the identity object is
converged before the permission object, which is converged before the
permission-binding object; and with identity provisioning explicitly disabled
neither the permission nor the permission-binding object is ever submitted for
convergence. -/
theorem rbac_ordering (env : Env) (inst : CustomPodAutoscaler)
    (hf : env.fetch = .found inst) (hdel : inst.deletionTimestamp = none)
    (hann : lookupMap inst.annotations pausedReplicasKey = none) :
    onlyAfter Event.isRoleReconcile Event.isServiceAccountReconcile (Reconcile env).2 = true ∧
      onlyAfter Event.isRoleBindingReconcile Event.isRoleReconcile (Reconcile env).2 = true ∧
      (inst.spec.provisionServiceAccount = some false →
        ((Reconcile env).2.all
          (fun e => !e.isRoleReconcile && !e.isRoleBindingReconcile)) = true) := by
  rw [Reconcile_found env inst hf, reconcileInstance_normal inst env hdel hann]
  refine ⟨normalPath_role_after_sa _ env, normalPath_rolebinding_after_role _ env,
    fun hsa => normalPath_no_rbac_when_disabled _ env ?_⟩
  simp [defaultToggles, hsa]

/-- Witness for C5, at a resource with all collaborator calls succeeding. -/
theorem rbac_ordering_witness :
    lookupMap normalInstance.annotations pausedReplicasKey = none ∧
      (onlyAfter Event.isRoleReconcile Event.isServiceAccountReconcile
          (Reconcile (fullEnv (.found normalInstance))).2 = true ∧
        onlyAfter Event.isRoleBindingReconcile Event.isRoleReconcile
          (Reconcile (fullEnv (.found normalInstance))).2 = true ∧
        (normalInstance.spec.provisionServiceAccount = some false →
          ((Reconcile (fullEnv (.found normalInstance))).2.all
            (fun e => !e.isRoleReconcile && !e.isRoleBindingReconcile)) = true)) :=
  ⟨by decide,
   rbac_ordering (fullEnv (.found normalInstance)) normalInstance rfl rfl (by decide)⟩

/-- Claim C8: one invocation executes exactly one of the two paths.  With the
pause key present, every collaborator call of the invocation is a pause-path
call (no object convergence, no cleanup); with it absent, every collaborator
call is a normal-path call (in particular, the declared resource is not
deleted and the scale target is neither read nor mutated). -/
theorem path_exclusivity (env : Env) (inst : CustomPodAutoscaler)
    (hf : env.fetch = .found inst) (hdel : inst.deletionTimestamp = none) :
    ((lookupMap inst.annotations pausedReplicasKey).isSome = true →
        ((Reconcile env).2.all
          (fun e => e.isDeleteInstance || e.isScaleGet || e.isScaleUpdate)) = true) ∧
      ((lookupMap inst.annotations pausedReplicasKey).isSome = false →
        ((Reconcile env).2.all (fun e => e.isK8sReconcile || e.isPodCleanup)) = true) := by
  rw [Reconcile_found env inst hf]
  rcases hann : lookupMap inst.annotations pausedReplicasKey with _ | s
  · refine ⟨fun hcontra => by simp at hcontra, fun _ => ?_⟩
    rw [reconcileInstance_normal inst env hdel hann]
    exact normalPath_only_normal_events _ env
  · refine ⟨fun _ => ?_, fun hcontra => by simp at hcontra⟩
    rw [reconcileInstance_paused inst env s hdel hann]
    exact pausePath_only_pause_events inst env s

/-- Witness for C8, on the pause side. -/
theorem path_exclusivity_witness :
    pausedInstance.deletionTimestamp = none ∧
      (((lookupMap pausedInstance.annotations pausedReplicasKey).isSome = true →
          ((Reconcile (fullEnv (.found pausedInstance))).2.all
            (fun e => e.isDeleteInstance || e.isScaleGet || e.isScaleUpdate)) = true) ∧
        ((lookupMap pausedInstance.annotations pausedReplicasKey).isSome = false →
          ((Reconcile (fullEnv (.found pausedInstance))).2.all
            (fun e => e.isK8sReconcile || e.isPodCleanup)) = true)) :=
  ⟨rfl, path_exclusivity (fullEnv (.found pausedInstance)) pausedInstance rfl rfl⟩

/-- The resource of claim C7's comparison: the four provisioning toggles set
explicitly true and the two role-extension toggles explicitly false (the
documented defaults), everything else unchanged. -/
def withExplicitDefaultToggles (inst : CustomPodAutoscaler) : CustomPodAutoscaler :=
  { inst with spec := { inst.spec with
      provisionServiceAccount := some true,
      provisionRole := some true,
      provisionRoleBinding := some true,
      provisionPod := some true,
      roleRequiresMetricsServer := some false,
      roleRequiresArgoRollouts := some false } }

theorem normalPath_fetch_irrelevant (inst : CustomPodAutoscaler) (env : Env) (f : FetchResult) :
    normalPath inst { env with fetch := f } = normalPath inst env := rfl

/-- Claim C7: a resource with all six toggles unset behaves, on the normal
path, exactly like the same resource with the toggles set to their documented
defaults — the same result and the same collaborator-call trace. -/
theorem toggle_defaulting_equivalence (env : Env) (inst : CustomPodAutoscaler)
    (hf : env.fetch = .found inst)
    (h1 : inst.spec.provisionServiceAccount = none)
    (h2 : inst.spec.provisionRole = none)
    (h3 : inst.spec.provisionRoleBinding = none)
    (h4 : inst.spec.provisionPod = none)
    (h5 : inst.spec.roleRequiresMetricsServer = none)
    (h6 : inst.spec.roleRequiresArgoRollouts = none)
    (hann : lookupMap inst.annotations pausedReplicasKey = none) :
    Reconcile env = Reconcile { env with fetch := .found (withExplicitDefaultToggles inst) } := by
  have hd : defaultToggles inst = withExplicitDefaultToggles inst := by
    simp [defaultToggles, withExplicitDefaultToggles, h1, h2, h3, h4, h5, h6]
  have hd2 : defaultToggles (withExplicitDefaultToggles inst) = withExplicitDefaultToggles inst := by
    simp [defaultToggles, withExplicitDefaultToggles]
  rw [Reconcile_found env inst hf,
    Reconcile_found { env with fetch := .found (withExplicitDefaultToggles inst) }
      (withExplicitDefaultToggles inst) rfl]
  cases hdel : inst.deletionTimestamp with
  | some ts =>
    rw [reconcileInstance_deleted inst env ts hdel,
      reconcileInstance_deleted (withExplicitDefaultToggles inst) _ ts hdel]
  | none =>
    rw [reconcileInstance_normal inst env hdel hann,
      reconcileInstance_normal (withExplicitDefaultToggles inst) _ hdel hann,
      hd, hd2]
    exact (normalPath_fetch_irrelevant (withExplicitDefaultToggles inst) env
      (.found (withExplicitDefaultToggles inst))).symm

/-- Witness for C7: the all-unset resource and its explicitly defaulted twin
produce identical invocations. -/
theorem toggle_defaulting_equivalence_witness :
    normalInstance.spec.provisionServiceAccount = none ∧
      lookupMap normalInstance.annotations pausedReplicasKey = none ∧
      Reconcile (fullEnv (.found normalInstance)) =
        Reconcile { fullEnv (.found normalInstance) with
          fetch := .found (withExplicitDefaultToggles normalInstance) } :=
  ⟨rfl, by decide,
   toggle_defaulting_equivalence (fullEnv (.found normalInstance)) normalInstance
     rfl rfl rfl rfl rfl rfl rfl (by decide)⟩
